import Mathlib

/-!
Verification of the alx-polly notification scheduling and delivery subsystem.

The development shallowly embeds the relevant code:
* `isInQuietHours` / `getNextDeliveryTime` from the notification type module,
* the SQL trigger function `queue_poll_closing_notifications` from the
  email-notifications migration,
* the batch processor `processScheduledNotifications` and the HTTP handler
  from the `process-notifications` edge function.

Timestamps are modelled as whole minutes since an arbitrary epoch (`Int`).
A timezone database is a partial map from IANA names to a fixed offset in
minutes (an invalid timezone name maps to `none`, which in the source raises
a `RangeError` inside `toLocaleString`).  The JavaScript idiom
`new Date(d.toLocaleString("en-US", {timeZone: tz}))` produces a `Date` whose
fields, read in the *host's* local frame, show the wall clock of `tz`; the
host's own offset is `serverOff` below.
-/

namespace Polly

/-- A timezone database: IANA name to offset in minutes, `none` if invalid. -/
def Tzdb : Type := String → Option Int

/-- Minutes in a day. -/
def minutesPerDay : Int := 1440

/-- Value of a decimal digit character, `none` otherwise (JS `Number` yields
`NaN` on non-numeric input; `NaN` is modelled as `none`). -/
def digitVal (c : Char) : Option Int :=
  if c = '0' then some 0 else if c = '1' then some 1 else if c = '2' then some 2
  else if c = '3' then some 3 else if c = '4' then some 4 else if c = '5' then some 5
  else if c = '6' then some 6 else if c = '7' then some 7 else if c = '8' then some 8
  else if c = '9' then some 9 else none

/-- Parse a run of decimal digits, accumulating. -/
def decDigitsAux : List Char → Int → Option Int
  | [], acc => some acc
  | c :: cs, acc =>
    match digitVal c with
    | some d => decDigitsAux cs (10 * acc + d)
    | none => none

/-- The whitespace JS `Number` strips before reading a numeral:
TAB, LF, VT, FF, CR, SP and NBSP.  (The exotic Unicode space separators are
not stripped here; strings containing them fall to `none`, and `capChar`
below keeps them out of every theorem's domain.) -/
def isJsSpace (c : Char) : Bool :=
  decide (c.toNat = 9) || decide (c.toNat = 10) || decide (c.toNat = 11)
    || decide (c.toNat = 12) || decide (c.toNat = 13) || decide (c.toNat = 32)
    || decide (c.toNat = 160)

/-- Drop the leading run of JS whitespace. -/
def trimLeft : List Char → List Char
  | [] => []
  | c :: cs => if isJsSpace c then trimLeft cs else c :: cs

/-- Drop leading and trailing JS whitespace. -/
def jsTrim (cs : List Char) : List Char :=
  trimLeft (trimLeft cs.reverse).reverse

/-- JS `Number(str)` on its integer fragment, exactly: strip the surrounding
whitespace, read the empty remainder as `0`, and read an optionally signed
run of decimal digits to its value (so `Number("-5") = -5` and
`Number(" 07 ") = 7`).  Strings JS reads as a non-integral or non-finite
number — a decimal point, an exponent, a radix prefix, `Infinity` — are
outside this integer-valued embedding and collapse to `none` together with
the genuine `NaN` strings; accordingly, no theorem in this development
asserts anything about the `none` branch except under `jsDefiniteNaN` below,
which guarantees the real result is `NaN`. -/
def jsNumber (cs : List Char) : Option Int :=
  match jsTrim cs with
  | [] => some 0
  | d :: rest =>
    if d = '+' then (if rest.isEmpty then none else decDigitsAux rest 0)
    else if d = '-' then
      (if rest.isEmpty then none else (decDigitsAux rest 0).map (fun n => -n))
    else decDigitsAux (d :: rest) 0

/-- An over-approximation of the characters that can occur in a string JS
reads as a number: all of `0-9`, sign, dot, exponent and radix letters, the
hex digits, the letters of `Infinity`, every whitespace or control character
and everything non-ASCII.  A character outside this set — `:`, `g`, `r`,
`z`, `#`, … — forces `Number` to yield `NaN` no matter the rest of the
string.  Over-inclusion is sound: it only shrinks where `jsDefiniteNaN`
applies. -/
def capChar (c : Char) : Bool :=
  decide (c.toNat ≤ 32) || decide (128 ≤ c.toNat)
    || decide (48 ≤ c.toNat ∧ c.toNat ≤ 57)
    || c == '+' || c == '-' || c == '.'
    || c == 'e' || c == 'E' || c == 'x' || c == 'X' || c == 'o' || c == 'O'
    || c == 'a' || c == 'A' || c == 'b' || c == 'B' || c == 'c' || c == 'C'
    || c == 'd' || c == 'D' || c == 'f' || c == 'F'
    || c == 'I' || c == 'n' || c == 'i' || c == 't' || c == 'y'

/-- `true` only when JS `Number` certainly yields `NaN` on the string: it
contains a character no numeric form can contain. -/
def jsDefiniteNaN (cs : List Char) : Bool :=
  cs.any (fun c => !(capChar c))

/-- JS `str.split(':')` over the character list. -/
def splitOnColon : List Char → List (List Char)
  | [] => [[]]
  | c :: cs =>
    if c = ':' then [] :: splitOnColon cs
    else
      match splitOnColon cs with
      | [] => [[c]]
      | p :: ps => (c :: p) :: ps

/-- `str.split(':').map(Number)` destructured as `[hour, minute]`
(the seconds component, when present, is ignored by the source).
`some` exactly when both of the first two components are integer numerals in
the sense of `jsNumber`; `none` when fewer than two components exist
(`undefined` minute, hence `NaN`) or a component falls outside the integer
fragment — see the fidelity note on `jsNumber`. -/
def parseTime (s : String) : Option (Int × Int) :=
  match splitOnColon s.data with
  | h :: m :: _ =>
    match jsNumber h, jsNumber m with
    | some a, some b => some (a, b)
    | _, _ => none
  | _ => none

/-- `true` only when the source's `split(':').map(Number)` destructuring is
certain to produce a `NaN` hour or minute: either fewer than two components
exist (the minute is `undefined`, and `Number(undefined)` is `NaN`), or one
of the first two components contains a character that forces `NaN`. -/
def definiteNaNTime (s : String) : Bool :=
  match splitOnColon s.data with
  | h :: m :: _ => jsDefiniteNaN h || jsDefiniteNaN m
  | _ => true

/-- Row of `notification_preferences` (fields used by the core). -/
structure NotificationPreferences where
  user_id : String
  email_enabled : Bool
  poll_closing_24h : Bool
  poll_closing_1h : Bool
  poll_closed_immediately : Bool
  new_poll_notifications : Bool
  voting_reminders : Bool
  results_announcements : Bool
  admin_notifications : Bool
  notification_frequency : String
  quiet_hours_start : String
  quiet_hours_end : String
  timezone : String
deriving DecidableEq

/-- The quiet-window membership test on minutes-of-day, exactly as coded:
overnight window when `start > end`, else same-day half-open window. -/
def quietWindowCheck (s e w : Int) : Bool :=
  if s > e then decide (w ≥ s) || decide (w < e)
  else decide (w ≥ s) && decide (w < e)

/-- `isInQuietHours(preferences, targetTime)` from the notification type module
(the edge function contains a byte-identical copy).  `tz` is the timezone
database, `serverOff` the processing host's UTC offset in minutes, `t` the
instant in minutes.  An invalid timezone makes `toLocaleString` throw and the
`catch` returns `false`; a time string JS cannot read as numbers yields `NaN`
hour or minute, and every `NaN` comparison is false, collapsing the window
check to `false` as well. -/
def isInQuietHours (tz : Tzdb) (serverOff : Int) (p : NotificationPreferences)
    (t : Int) : Bool :=
  match tz p.timezone with
  | none => false
  | some z =>
    let userTime := t + z - serverOff
    let w := (userTime + serverOff) % 1440
    match parseTime p.quiet_hours_start, parseTime p.quiet_hours_end with
    | some s, some e => quietWindowCheck (s.1 * 60 + s.2) (e.1 * 60 + e.2) w
    | _, _ => false

/-- `getNextDeliveryTime(preferences, targetTime)` from the notification type
module.  `deliveryTime.setHours(endHour, endMinute, 0, 0)` keeps the host-frame
local date of `userTime` and sets its host-frame time of day; adding a day is
adding 1440 minutes.  The `none` fallbacks are unreachable: when
`isInQuietHours` is `true` the timezone resolved and both times parsed. -/
def getNextDeliveryTime (tz : Tzdb) (serverOff : Int) (p : NotificationPreferences)
    (t : Int) : Int :=
  if isInQuietHours tz serverOff p t = false then t
  else
    match tz p.timezone, parseTime p.quiet_hours_start, parseTime p.quiet_hours_end with
    | some z, some s, some e =>
      let userTime := t + z - serverOff
      let cand := 1440 * ((userTime + serverOff) / 1440) + (e.1 * 60 + e.2) - serverOff
      if e.1 < s.1 ∧ ((userTime + serverOff) % 1440) / 60 ≥ s.1 then cand + 1440
      else cand
    | _, _, _ => t

/-! ## Event-to-Queue Scheduler: the SQL trigger function
`queue_poll_closing_notifications` from the email-notifications migration. -/

/-- `NEW` row of `polls` as seen by the trigger. -/
structure PollRow where
  id : Nat
  question : String
  creator_id : String
  end_time : Option Int
deriving DecidableEq

/-- Row of `votes` (columns used by the recipient query). -/
structure Vote where
  poll_id : Nat
  voter_id : String
deriving DecidableEq

/-- A row inserted into `notification_queue` by the trigger. -/
structure QueueInsert where
  user_id : String
  poll_id : Nat
  notification_type : String
  scheduled_for : Int
deriving DecidableEq

/-- The recipient query shared by the three INSERT statements: rows of
`notification_preferences` with email enabled, the per-type flag set, and
(creator OR has voted OR — for the two closing warnings only — opted into
new-poll notifications). -/
def closingRecipients (prefsTable : List NotificationPreferences) (poll : PollRow)
    (votes : List Vote) (typeFlag : NotificationPreferences → Bool)
    (withNewPollOptIn : Bool) : List NotificationPreferences :=
  prefsTable.filter fun np =>
    np.email_enabled && typeFlag np &&
      (np.user_id == poll.creator_id
        || votes.any (fun v => v.poll_id == poll.id && v.voter_id == np.user_id)
        || (withNewPollOptIn && np.new_poll_notifications))

/-- First INSERT: `poll_closing_24h`, guarded by
`NEW.end_time IS NOT NULL AND NEW.end_time > NOW() + INTERVAL '24 hours'`. -/
def queue24hInserts (now : Int) (poll : PollRow)
    (prefsTable : List NotificationPreferences) (votes : List Vote) : List QueueInsert :=
  match poll.end_time with
  | some endTime =>
    if endTime > now + 1440 then
      (closingRecipients prefsTable poll votes (fun np => np.poll_closing_24h) true).map
        fun np => ⟨np.user_id, poll.id, "poll_closing_24h", endTime - 1440⟩
    else []
  | none => []

/-- Second INSERT: `poll_closing_1h`, guarded by
`NEW.end_time IS NOT NULL AND NEW.end_time > NOW() + INTERVAL '1 hour'`. -/
def queue1hInserts (now : Int) (poll : PollRow)
    (prefsTable : List NotificationPreferences) (votes : List Vote) : List QueueInsert :=
  match poll.end_time with
  | some endTime =>
    if endTime > now + 60 then
      (closingRecipients prefsTable poll votes (fun np => np.poll_closing_1h) true).map
        fun np => ⟨np.user_id, poll.id, "poll_closing_1h", endTime - 60⟩
    else []
  | none => []

/-- Third INSERT: `poll_closed`, guarded only by `NEW.end_time IS NOT NULL`;
its recipient query has no new-poll opt-in clause. -/
def queueClosedInserts (poll : PollRow)
    (prefsTable : List NotificationPreferences) (votes : List Vote) : List QueueInsert :=
  match poll.end_time with
  | some endTime =>
    (closingRecipients prefsTable poll votes (fun np => np.poll_closed_immediately) false).map
      fun np => ⟨np.user_id, poll.id, "poll_closed", endTime⟩
  | none => []

/-- The whole trigger body: the three INSERT statements in order. -/
def queuePollClosingNotifications (now : Int) (poll : PollRow)
    (prefsTable : List NotificationPreferences) (votes : List Vote) : List QueueInsert :=
  queue24hInserts now poll prefsTable votes
    ++ queue1hInserts now poll prefsTable votes
    ++ queueClosedInserts poll prefsTable votes

/-- The natural key the spec designates for deduplication. -/
def insertKey (q : QueueInsert) : String × Nat × String :=
  (q.user_id, q.poll_id, q.notification_type)

/-! ## Notification Queue and Delivery Processor
from the `process-notifications` edge function. -/

/-- Row of `notification_queue` (fields used by the processor). -/
structure QueueEntry where
  id : Nat
  user_id : String
  poll_id : Option Nat
  notification_type : String
  scheduled_for : Int
  status : String
deriving DecidableEq

/-- The due-batch SELECT:
`status = 'scheduled' AND scheduled_for <= now`, `limit` rows. -/
def selectDue (now : Int) (limit : Nat) (q : List QueueEntry) : List QueueEntry :=
  (q.filter fun e => e.status == "scheduled" && decide (e.scheduled_for ≤ now)).take limit

/-- `UPDATE notification_queue SET status = st WHERE id = i`
(the code puts no further condition on the row). -/
def markStatus (i : Nat) (st : String) (q : List QueueEntry) : List QueueEntry :=
  q.map fun e => if e.id = i then { e with status := st } else e

/-- Outcome of the external email capability for one send call. -/
structure SendOutcome where
  success : Bool
  messageId : Option String
  error : Option String
deriving DecidableEq

/-- Ledger row inserted into `email_notifications` (fields used by claims). -/
structure LedgerRecord where
  user_id : String
  notification_type : String
  status : String
  failure_reason : Option String
  email_provider_id : Option String
deriving DecidableEq

/-- Result of processing one claimed entry: the entry's final queue status,
its (possibly rescheduled) `scheduled_for`, the ledger rows written, and the
counter bucket it lands in. -/
structure ProcessResult where
  status : String
  scheduledFor : Int
  ledger : List LedgerRecord
  bucket : String
deriving DecidableEq

/-- The send branch shared by the found-preferences and no-preferences paths:
insert a ledger row (`sent` or `failed`) and set the matching queue status. -/
def attemptSend (entry : QueueEntry) (sendResult : SendOutcome) : ProcessResult :=
  if sendResult.success then
    ⟨"sent", entry.scheduled_for,
      [⟨entry.user_id, entry.notification_type, "sent", none, sendResult.messageId⟩],
      "success"⟩
  else
    ⟨"failed", entry.scheduled_for,
      [⟨entry.user_id, entry.notification_type, "failed", sendResult.error, none⟩],
      "failed"⟩

/-- The body of the per-entry loop in `processScheduledNotifications`, after
the entry has been marked `processing`:
1. `auth.admin.getUserById`: a missing user or missing email throws, and the
   `catch` block marks the entry `failed` and writes **no** ledger row;
2. `preferences && !preferences.email_enabled` cancels (no ledger, skipped);
3. `preferences && isInQuietHours(preferences)` reschedules using the inline
   computation `new Date(); setHours(endHour, endMinute, 0, 0); if past, +1 day`
   — all in the host's frame, with no timezone conversion (skipped);
4. otherwise render + send, ledger `sent`/`failed`, matching queue status.
A user with no preferences row skips both guards and goes straight to send. -/
def processOne (tz : Tzdb) (serverOff now : Int) (getUser : String → Option String)
    (prefsOf : String → Option NotificationPreferences) (sendResult : SendOutcome)
    (entry : QueueEntry) : ProcessResult :=
  match getUser entry.user_id with
  | none => ⟨"failed", entry.scheduled_for, [], "failed"⟩
  | some _email =>
    match prefsOf entry.user_id with
    | some prefs =>
      if !prefs.email_enabled then
        ⟨"cancelled", entry.scheduled_for, [], "skipped"⟩
      else if isInQuietHours tz serverOff prefs now then
        match parseTime prefs.quiet_hours_end with
        | some e =>
          let nd0 := 1440 * ((now + serverOff) / 1440) + (e.1 * 60 + e.2) - serverOff
          let nd := if nd0 ≤ now then nd0 + 1440 else nd0
          ⟨"scheduled", nd, [], "skipped"⟩
        | none => ⟨"scheduled", entry.scheduled_for, [], "skipped"⟩
      else attemptSend entry sendResult
    | none => attemptSend entry sendResult

/-- Batch counters (`processedCount` in the source). -/
structure Counters where
  success : Nat
  failed : Nat
  skipped : Nat
deriving DecidableEq

/-- Increment the counter named by the bucket. -/
def bump (c : Counters) (bucket : String) : Counters :=
  if bucket == "success" then { c with success := c.success + 1 }
  else if bucket == "failed" then { c with failed := c.failed + 1 }
  else { c with skipped := c.skipped + 1 }

/-- Apply one entry's outcome to the queue table:
`UPDATE ... SET status, scheduled_for WHERE id = entry.id`. -/
def applyOutcome (i : Nat) (r : ProcessResult) (q : List QueueEntry) : List QueueEntry :=
  q.map fun e =>
    if e.id = i then { e with status := r.status, scheduled_for := r.scheduledFor } else e

/-- One iteration of the processing loop: mark the entry `processing`,
process it, bump the counter, append its ledger rows, apply its outcome. -/
def processStep (tz : Tzdb) (serverOff now : Int) (getUser : String → Option String)
    (prefsOf : String → Option NotificationPreferences)
    (sendOf : QueueEntry → SendOutcome)
    (acc : Counters × List LedgerRecord × List QueueEntry) (entry : QueueEntry) :
    Counters × List LedgerRecord × List QueueEntry :=
  let st1 := markStatus entry.id "processing" acc.2.2
  let r := processOne tz serverOff now getUser prefsOf (sendOf entry) entry
  (bump acc.1 r.bucket, acc.2.1 ++ r.ledger, applyOutcome entry.id r st1)

/-- One whole run of `processScheduledNotifications`: SELECT the due batch
(limit 50), then loop over it.  The per-entry `try`/`catch` means a failing
entry never aborts the loop, which the fold structure reflects.  `sendOf`
gives the email capability's outcome for each entry. -/
def processScheduledNotifications (tz : Tzdb) (serverOff now : Int)
    (getUser : String → Option String)
    (prefsOf : String → Option NotificationPreferences)
    (sendOf : QueueEntry → SendOutcome) (q : List QueueEntry) :
    Counters × List LedgerRecord × List QueueEntry :=
  (selectDue now 50 q).foldl (processStep tz serverOff now getUser prefsOf sendOf)
    (⟨0, 0, 0⟩, [], q)

/-! ## The claim step in isolation, and two interleaved runs.
The code claims a batch in two separate operations: a pure SELECT of due rows
followed by one unconditional per-row UPDATE to `processing`.  Nothing makes
the pair atomic, so a second run may SELECT between the first run's SELECT and
its UPDATEs. -/

/-- One run's claim step, run to completion: SELECT then mark each row. -/
def claimDueBatch (now : Int) (limit : Nat) (q : List QueueEntry) :
    List QueueEntry × List QueueEntry :=
  let sel := selectDue now limit q
  (sel, sel.foldl (fun s e => markStatus e.id "processing" s) q)

/-- A legal interleaving of two concurrent claim steps: both runs SELECT from
the same state before either applies its UPDATEs.  Returns each run's claimed
batch and the final queue state. -/
def twoClaimsInterleaved (now : Int) (limit : Nat) (q : List QueueEntry) :
    List QueueEntry × List QueueEntry × List QueueEntry :=
  let selA := selectDue now limit q
  let selB := selectDue now limit q
  let st1 := selA.foldl (fun s e => markStatus e.id "processing" s) q
  let st2 := selB.foldl (fun s e => markStatus e.id "processing" s) st1
  (selA, selB, st2)

/-! ## HTTP handler of the edge function. -/

/-- The parts of the incoming request the handler inspects. -/
structure EdgeRequest where
  method : String
  authorization : Option String
deriving DecidableEq

/-- `true` when `pat` is an initial segment of the list. -/
def headMatches : List Char → List Char → Bool
  | [], _ => true
  | _ :: _, [] => false
  | p :: ps, c :: cs => p == c && headMatches ps cs

/-- JS `str.replace(pat, '')` for a plain string `pat`:
remove the first occurrence, keep everything else. -/
def removeFirst (pat : List Char) : List Char → List Char
  | [] => []
  | c :: cs =>
    if headMatches pat (c :: cs) then List.drop (pat.length - 1) cs
    else c :: removeFirst pat cs

/-- What the handler did with a request: HTTP status of the response and
whether `processScheduledNotifications` was invoked. -/
structure HandlerOutcome where
  httpStatus : Nat
  processed : Bool
deriving DecidableEq

/-- The `Deno.serve` handler's control flow: the authorization check runs
only for `POST`; a bearer token equal to the service-role key passes,
otherwise the token must verify as a user token; any other method skips the
check entirely and processing runs. -/
def edgeHandler (serviceKey : String) (verifyUser : String → Bool)
    (req : EdgeRequest) : HandlerOutcome :=
  if req.method = "POST" then
    match req.authorization with
    | none => ⟨401, false⟩
    | some h =>
      let token := String.mk (removeFirst "Bearer ".data h.data)
      if token = serviceKey then ⟨200, true⟩
      else if verifyUser token then ⟨200, true⟩
      else ⟨401, false⟩
  else ⟨200, true⟩

/-! ## Concrete fixtures used by witnesses and counterexamples. -/

/-- A timezone database resolving only `UTC`, at offset 0. -/
def utcOnlyTz : Tzdb := fun s => if s = "UTC" then some 0 else none

/-- The system default preference record (SQL column defaults and
`DEFAULT_NOTIFICATION_PREFERENCES`): email on; closing/closed/reminders/results
on; new-poll/admin off; immediate; quiet hours 22:00–08:00 UTC. -/
def defaultPrefsRecord (uid : String) : NotificationPreferences :=
  ⟨uid, true, true, true, true, false, true, true, false, "immediate",
    "22:00:00", "08:00:00", "UTC"⟩

/-- Defaults except the master switch off. -/
def disabledPrefsRecord (uid : String) : NotificationPreferences :=
  ⟨uid, false, true, true, true, false, true, true, false, "immediate",
    "22:00:00", "08:00:00", "UTC"⟩

/-- Defaults except an inverted window wrapping inside one hour: 08:30–08:00. -/
def oddWindowPrefs (uid : String) : NotificationPreferences :=
  ⟨uid, true, true, true, true, false, true, true, false, "immediate",
    "08:30:00", "08:00:00", "UTC"⟩

/-- Defaults except a timezone name no database resolves. -/
def badTzPrefs (uid : String) : NotificationPreferences :=
  ⟨uid, true, true, true, true, false, true, true, false, "immediate",
    "22:00:00", "08:00:00", "Not/AZone"⟩

/-- A poll created at minute 0 closing 48h later. -/
def pollClosingIn48h : PollRow := ⟨1, "Q?", "creator", some 2880⟩

/-- A poll created at minute 0 closing 30 minutes later. -/
def pollClosingIn30min : PollRow := ⟨1, "Q?", "creator", some 30⟩

/-- Defaults except a quiet-hours start that is malformed as a time yet
numeric to JS: `Number("-5") = -5`. -/
def negStartPrefs (uid : String) : NotificationPreferences :=
  ⟨uid, true, true, true, true, false, true, true, false, "immediate",
    "-5:00", "08:00:00", "UTC"⟩

/-- Defaults except a quiet-hours start JS certainly reads as `NaN`. -/
def garbagePrefs (uid : String) : NotificationPreferences :=
  ⟨uid, true, true, true, true, false, true, true, false, "immediate",
    "garbage", "08:00:00", "UTC"⟩

/-- A due queue entry. -/
def dueEntry (i : Nat) (uid : String) : QueueEntry :=
  ⟨i, uid, some 1, "poll_closed", 0, "scheduled"⟩

/-- A successful send outcome. -/
def okSend : SendOutcome := ⟨true, some "msg-1", none⟩

/-! ## Evaluation lemmas for the quiet-hours pair. -/

/-- Membership in the coded quiet window, as a proposition. -/
theorem quietWindowCheck_iff (s e w : Int) :
    quietWindowCheck s e w = true ↔ (if e < s then s ≤ w ∨ w < e else s ≤ w ∧ w < e) := by
  unfold quietWindowCheck
  split_ifs with h
  · simp [gt_iff_lt, h]
  · simp [gt_iff_lt, h]

/-- With a resolving timezone and parsable window, `isInQuietHours` is the
window check on the user's wall clock; the host offset cancels out. -/
theorem isInQuietHours_eval (tz : Tzdb) (serverOff z sh sm eh em : Int)
    (p : NotificationPreferences) (t : Int)
    (htz : tz p.timezone = some z)
    (hps : parseTime p.quiet_hours_start = some (sh, sm))
    (hpe : parseTime p.quiet_hours_end = some (eh, em)) :
    isInQuietHours tz serverOff p t
      = quietWindowCheck (sh * 60 + sm) (eh * 60 + em) ((t + z) % 1440) := by
  have harg : t + z - serverOff + serverOff = t + z := by ring
  simp only [isInQuietHours, htz, hps, hpe, harg]

/-- When the host offset equals the user's offset and the instant is inside
quiet hours, `getNextDeliveryTime` computes the coded candidate. -/
theorem getNextDeliveryTime_eval (tz : Tzdb) (z sh sm eh em : Int)
    (p : NotificationPreferences) (t : Int)
    (htz : tz p.timezone = some z)
    (hps : parseTime p.quiet_hours_start = some (sh, sm))
    (hpe : parseTime p.quiet_hours_end = some (eh, em))
    (hq : isInQuietHours tz z p t = true) :
    getNextDeliveryTime tz z p t
      = (if eh < sh ∧ ((t + z) % 1440) / 60 ≥ sh
         then 1440 * ((t + z) / 1440) + (eh * 60 + em) - z + 1440
         else 1440 * ((t + z) / 1440) + (eh * 60 + em) - z) := by
  have harg : t + z - z + z = t + z := by ring
  simp only [getNextDeliveryTime, hq, htz, hps, hpe, harg, Bool.true_eq_false, if_false]

/-- Claim C4: `isInQuietHours` returns `true` exactly when the instant's wall
clock in the user's timezone is in the configured window — wrapping past
midnight when `startMinutes > endMinutes` (membership iff
`currentMinutes ≥ startMinutes` or `currentMinutes < endMinutes`), and the
half-open same-day interval otherwise. -/
theorem c4_quiet_window_characterization (tz : Tzdb) (serverOff z sh sm eh em : Int)
    (p : NotificationPreferences) (t : Int)
    (htz : tz p.timezone = some z)
    (hps : parseTime p.quiet_hours_start = some (sh, sm))
    (hpe : parseTime p.quiet_hours_end = some (eh, em)) :
    isInQuietHours tz serverOff p t = true ↔
      (if eh * 60 + em < sh * 60 + sm
       then sh * 60 + sm ≤ (t + z) % 1440 ∨ (t + z) % 1440 < eh * 60 + em
       else sh * 60 + sm ≤ (t + z) % 1440 ∧ (t + z) % 1440 < eh * 60 + em) := by
  rw [isInQuietHours_eval tz serverOff z sh sm eh em p t htz hps hpe]
  exact quietWindowCheck_iff _ _ _

/-- Witness for C4: the 22:00–08:00 default window at 23:00 UTC. -/
theorem c4_quiet_window_characterization_witness :
    (utcOnlyTz (defaultPrefsRecord "u").timezone = some 0
      ∧ parseTime (defaultPrefsRecord "u").quiet_hours_start = some (22, 0)
      ∧ parseTime (defaultPrefsRecord "u").quiet_hours_end = some (8, 0))
    ∧ (isInQuietHours utcOnlyTz 0 (defaultPrefsRecord "u") 1380 = true ↔
        (if (8 : Int) * 60 + 0 < 22 * 60 + 0
         then (22 : Int) * 60 + 0 ≤ (1380 + 0) % 1440
                ∨ ((1380 : Int) + 0) % 1440 < (8 : Int) * 60 + 0
         else (22 : Int) * 60 + 0 ≤ (1380 + 0) % 1440
                ∧ ((1380 : Int) + 0) % 1440 < (8 : Int) * 60 + 0)) :=
  ⟨⟨by decide, by decide, by decide⟩,
    c4_quiet_window_characterization utcOnlyTz 0 0 22 0 8 0 (defaultPrefsRecord "u") 1380
      (by decide) (by decide) (by decide)⟩

/-- An unresolvable timezone or a `none` parse makes the window check come
out `false` and the deferral leave the instant unchanged. -/
theorem quiet_hours_parse_none_fails_open (tz : Tzdb) (serverOff : Int)
    (p : NotificationPreferences) (t : Int)
    (h : tz p.timezone = none
      ∨ parseTime p.quiet_hours_start = none
      ∨ parseTime p.quiet_hours_end = none) :
    isInQuietHours tz serverOff p t = false
      ∧ getNextDeliveryTime tz serverOff p t = t := by
  have hfalse : isInQuietHours tz serverOff p t = false := by
    unfold isInQuietHours
    rcases htz : tz p.timezone with _ | z
    · rfl
    · rcases h with h | h | h
      · rw [htz] at h
        exact Option.noConfusion h
      · rw [h]
      · rw [h]
        rcases parseTime p.quiet_hours_start with _ | s <;> rfl
  refine ⟨hfalse, ?_⟩
  simp [getNextDeliveryTime, hfalse]

/-- A successful digit run contains only digits. -/
theorem decDigitsAux_some_digits {cs : List Char} {acc n : Int}
    (h : decDigitsAux cs acc = some n) : ∀ c ∈ cs, ∃ v, digitVal c = some v := by
  induction cs generalizing acc with
  | nil => intro c hc; exact absurd hc (List.not_mem_nil c)
  | cons d ds ih =>
    intro c hc
    simp only [decDigitsAux] at h
    rcases hd : digitVal d with _ | v
    · rw [hd] at h
      exact Option.noConfusion h
    · rw [hd] at h
      rcases List.mem_cons.mp hc with rfl | hc'
      · exact ⟨v, hd⟩
      · exact ih h c hc'

/-- Digits are numeric-capable characters. -/
theorem digitVal_cap {c : Char} {v : Int} (h : digitVal c = some v) :
    capChar c = true := by
  unfold digitVal at h
  split_ifs at h with h0 h1 h2 h3 h4 h5 h6 h7 h8 h9
  · subst h0; decide
  · subst h1; decide
  · subst h2; decide
  · subst h3; decide
  · subst h4; decide
  · subst h5; decide
  · subst h6; decide
  · subst h7; decide
  · subst h8; decide
  · subst h9; decide

/-- JS whitespace is numeric-capable (it may pad a numeral). -/
theorem capChar_of_space {c : Char} (h : isJsSpace c = true) : capChar c = true := by
  simp only [isJsSpace, Bool.or_eq_true, decide_eq_true_eq] at h
  have hval : c.toNat ≤ 32 ∨ 128 ≤ c.toNat := by omega
  unfold capChar
  rcases hval with hv | hv <;> simp [hv]

/-- A non-whitespace character survives the left trim. -/
theorem mem_trimLeft_of_not_space {c : Char} (hns : ¬ isJsSpace c = true) :
    ∀ {cs : List Char}, c ∈ cs → c ∈ trimLeft cs := by
  intro cs
  induction cs with
  | nil => intro h; exact absurd h (List.not_mem_nil c)
  | cons d ds ih =>
    intro h
    rw [trimLeft]
    split_ifs with hd
    · rcases List.mem_cons.mp h with rfl | h'
      · exact absurd hd hns
      · exact ih h'
    · exact h

/-- A non-whitespace character survives the full trim. -/
theorem mem_jsTrim_of_not_space {c : Char} {cs : List Char}
    (hns : ¬ isJsSpace c = true) (h : c ∈ cs) : c ∈ jsTrim cs := by
  unfold jsTrim
  apply mem_trimLeft_of_not_space hns
  rw [List.mem_reverse]
  exact mem_trimLeft_of_not_space hns (List.mem_reverse.mpr h)

/-- Soundness of `jsDefiniteNaN`: a string containing a character outside the
numeric alphabet is not a numeral for the embedded `Number` either. -/
theorem jsNumber_none_of_definiteNaN {cs : List Char}
    (h : jsDefiniteNaN cs = true) : jsNumber cs = none := by
  rcases List.any_eq_true.mp h with ⟨c, hcmem, hncap⟩
  have hncap' : capChar c = false := by
    cases hcc : capChar c
    · rfl
    · rw [hcc] at hncap
      exact Bool.noConfusion hncap
  cases hj : jsNumber cs with
  | none => rfl
  | some n =>
    exfalso
    have hnsp : ¬ isJsSpace c = true := by
      intro hsp
      rw [capChar_of_space hsp] at hncap'
      exact Bool.noConfusion hncap'
    have hmem : c ∈ jsTrim cs := mem_jsTrim_of_not_space hnsp hcmem
    unfold jsNumber at hj
    rcases ht : jsTrim cs with _ | ⟨d, rest⟩
    · rw [ht] at hmem
      exact absurd hmem (List.not_mem_nil c)
    · rw [ht] at hmem
      simp only [ht] at hj
      have hdigits : ∀ (l : List Char) (k : Int),
          decDigitsAux l 0 = some k → c ∈ l → False := by
        intro l k hl hcl
        rcases decDigitsAux_some_digits hl c hcl with ⟨v, hv⟩
        rw [digitVal_cap hv] at hncap'
        exact Bool.noConfusion hncap'
      by_cases hplus : d = '+'
      · rw [if_pos hplus] at hj
        by_cases hempty : rest.isEmpty
        · rw [if_pos hempty] at hj
          exact Option.noConfusion hj
        · rw [if_neg hempty] at hj
          rcases List.mem_cons.mp hmem with rfl | hmem'
          · rw [hplus] at hncap'
            exact absurd hncap' (by decide)
          · exact hdigits rest n hj hmem'
      · rw [if_neg hplus] at hj
        by_cases hminus : d = '-'
        · rw [if_pos hminus] at hj
          by_cases hempty : rest.isEmpty
          · rw [if_pos hempty] at hj
            exact Option.noConfusion hj
          · rw [if_neg hempty] at hj
            rcases Option.map_eq_some'.mp hj with ⟨m, hm, _⟩
            rcases List.mem_cons.mp hmem with rfl | hmem'
            · rw [hminus] at hncap'
              exact absurd hncap' (by decide)
            · exact hdigits rest m hm hmem'
        · rw [if_neg hminus] at hj
          exact hdigits (d :: rest) n hj hmem

/-- Soundness of `definiteNaNTime` for the embedded parse. -/
theorem parseTime_none_of_definiteNaN {s : String}
    (h : definiteNaNTime s = true) : parseTime s = none := by
  unfold definiteNaNTime at h
  unfold parseTime
  rcases hs : splitOnColon s.data with _ | ⟨h1, rest⟩
  · rfl
  · rcases rest with _ | ⟨m1, rest2⟩
    · rfl
    · show (match jsNumber h1, jsNumber m1 with
            | some a, some b => some (a, b)
            | _, _ => none) = none
      simp only [hs, Bool.or_eq_true] at h
      rcases h with h | h
      · rw [jsNumber_none_of_definiteNaN h]
      · rw [jsNumber_none_of_definiteNaN h]
        rcases jsNumber h1 with _ | v <;> rfl

/-- Counterexample for C10 as stated: the record with
`quietHoursStart = "-5:00"` is malformed as a time, yet JS `Number` reads
`-5`, so the real code computes the window check: at 03:00 UTC the record *is*
in quiet hours and `getNextDeliveryTime` defers the delivery to 08:00 —
a malformed preferences record can defer a delivery. -/
theorem c10_counterexample :
    parseTime (negStartPrefs "u").quiet_hours_start = some (-5, 0)
    ∧ isInQuietHours utcOnlyTz 0 (negStartPrefs "u") 180 = true
    ∧ getNextDeliveryTime utcOnlyTz 0 (negStartPrefs "u") 180 = 480
    ∧ getNextDeliveryTime utcOnlyTz 0 (negStartPrefs "u") 180 ≠ 180 :=
  ⟨by decide, by decide, by decide, by decide⟩

/-- Claim C10 (corrected): `isInQuietHours` is total and fails open for an
unresolvable timezone and for quiet-hours strings JS certainly cannot read as
numbers — a missing minute component, or an hour/minute component containing
a character outside the numeric alphabet: in those cases it returns `false`
and `getNextDeliveryTime` leaves the instant unchanged.  (Strings malformed
as times but still numeric to JS are *not* errors: the window check runs on
their minutes and can defer — see the counterexample.) -/
theorem c10_fails_open_on_definite_nan (tz : Tzdb) (serverOff : Int)
    (p : NotificationPreferences) (t : Int)
    (h : tz p.timezone = none
      ∨ definiteNaNTime p.quiet_hours_start = true
      ∨ definiteNaNTime p.quiet_hours_end = true) :
    isInQuietHours tz serverOff p t = false
      ∧ getNextDeliveryTime tz serverOff p t = t := by
  apply quiet_hours_parse_none_fails_open
  rcases h with h | h | h
  · exact Or.inl h
  · exact Or.inr (Or.inl (parseTime_none_of_definiteNaN h))
  · exact Or.inr (Or.inr (parseTime_none_of_definiteNaN h))

/-- Witness for C10 (amended): a record whose quiet-hours start JS reads as
`NaN`, evaluated at 23:00; and the unresolvable-timezone arm at the same
instant. -/
theorem c10_fails_open_on_definite_nan_witness :
    (definiteNaNTime (garbagePrefs "u").quiet_hours_start = true
      ∧ utcOnlyTz (badTzPrefs "u").timezone = none)
    ∧ (isInQuietHours utcOnlyTz 0 (garbagePrefs "u") 1380 = false
      ∧ getNextDeliveryTime utcOnlyTz 0 (garbagePrefs "u") 1380 = 1380)
    ∧ isInQuietHours utcOnlyTz 0 (badTzPrefs "u") 1380 = false :=
  ⟨⟨by decide, by decide⟩,
    c10_fails_open_on_definite_nan utcOnlyTz 0 (garbagePrefs "u") 1380
      (Or.inr (Or.inl (by decide))),
    (c10_fails_open_on_definite_nan utcOnlyTz 0 (badTzPrefs "u") 1380
      (Or.inl (by decide))).1⟩

/-! ## Structure of the scheduler's inserts. -/

/-- Recipients are a sub-collection of the preference table. -/
theorem closingRecipients_subset {prefsTable : List NotificationPreferences}
    {poll : PollRow} {votes : List Vote} {typeFlag : NotificationPreferences → Bool}
    {b : Bool} {np : NotificationPreferences}
    (h : np ∈ closingRecipients prefsTable poll votes typeFlag b) : np ∈ prefsTable :=
  List.mem_of_mem_filter h

/-- Every insert of the first block: type `poll_closing_24h`, fire time
`end_time - 24h`, guarded by `end_time > now + 24h`, user from the table. -/
theorem mem_queue24hInserts {now : Int} {poll : PollRow}
    {prefsTable : List NotificationPreferences} {votes : List Vote} {q : QueueInsert}
    (h : q ∈ queue24hInserts now poll prefsTable votes) :
    ∃ et np, poll.end_time = some et ∧ et > now + 1440 ∧ np ∈ prefsTable
      ∧ q = ⟨np.user_id, poll.id, "poll_closing_24h", et - 1440⟩ := by
  unfold queue24hInserts at h
  rcases het : poll.end_time with _ | et
  · simp [het] at h
  · simp only [het] at h
    split_ifs at h with hcond
    · rcases List.mem_map.mp h with ⟨np, hnp, hq⟩
      exact ⟨et, np, rfl, hcond, closingRecipients_subset hnp, hq.symm⟩
    · exact absurd h (List.not_mem_nil q)

/-- Every insert of the second block: type `poll_closing_1h`, fire time
`end_time - 1h`, guarded by `end_time > now + 1h`, user from the table. -/
theorem mem_queue1hInserts {now : Int} {poll : PollRow}
    {prefsTable : List NotificationPreferences} {votes : List Vote} {q : QueueInsert}
    (h : q ∈ queue1hInserts now poll prefsTable votes) :
    ∃ et np, poll.end_time = some et ∧ et > now + 60 ∧ np ∈ prefsTable
      ∧ q = ⟨np.user_id, poll.id, "poll_closing_1h", et - 60⟩ := by
  unfold queue1hInserts at h
  rcases het : poll.end_time with _ | et
  · simp [het] at h
  · simp only [het] at h
    split_ifs at h with hcond
    · rcases List.mem_map.mp h with ⟨np, hnp, hq⟩
      exact ⟨et, np, rfl, hcond, closingRecipients_subset hnp, hq.symm⟩
    · exact absurd h (List.not_mem_nil q)

/-- Every insert of the third block: type `poll_closed` fired at `end_time`,
with no minimum lead time, user from the table. -/
theorem mem_queueClosedInserts {poll : PollRow}
    {prefsTable : List NotificationPreferences} {votes : List Vote} {q : QueueInsert}
    (h : q ∈ queueClosedInserts poll prefsTable votes) :
    ∃ et np, poll.end_time = some et ∧ np ∈ prefsTable
      ∧ q = ⟨np.user_id, poll.id, "poll_closed", et⟩ := by
  unfold queueClosedInserts at h
  rcases het : poll.end_time with _ | et
  · simp [het] at h
  · simp only [het] at h
    rcases List.mem_map.mp h with ⟨np, hnp, hq⟩
    exact ⟨et, np, rfl, closingRecipients_subset hnp, hq.symm⟩

/-- Claim C5: the three fire-time rules — `poll_closing_24h` at
`endTime - 24h` only when `endTime > now + 24h`, `poll_closing_1h` at
`endTime - 1h` only when `endTime > now + 1h`, `poll_closed` at `endTime`
unconditionally — and the two end-to-end scenarios: an opted-in creator gets
exactly the three entries for `endTime = now + 48h`, and only the
`poll_closed` entry for `endTime = now + 30min`. -/
theorem c5_fire_time_rules (now : Int) (np : NotificationPreferences)
    (pid : Nat) (question : String)
    (hmail : np.email_enabled = true) (h24 : np.poll_closing_24h = true)
    (h1 : np.poll_closing_1h = true) (hcl : np.poll_closed_immediately = true) :
    (∀ (poll : PollRow) (prefsTable : List NotificationPreferences)
       (votes : List Vote) (q : QueueInsert),
       q ∈ queuePollClosingNotifications now poll prefsTable votes →
       ∃ et, poll.end_time = some et ∧
         ((q.notification_type = "poll_closing_24h" ∧ q.scheduled_for = et - 1440
             ∧ et > now + 1440)
          ∨ (q.notification_type = "poll_closing_1h" ∧ q.scheduled_for = et - 60
             ∧ et > now + 60)
          ∨ (q.notification_type = "poll_closed" ∧ q.scheduled_for = et)))
    ∧ queuePollClosingNotifications now ⟨pid, question, np.user_id, some (now + 2880)⟩ [np] []
        = [⟨np.user_id, pid, "poll_closing_24h", now + 1440⟩,
           ⟨np.user_id, pid, "poll_closing_1h", now + 2820⟩,
           ⟨np.user_id, pid, "poll_closed", now + 2880⟩]
    ∧ queuePollClosingNotifications now ⟨pid, question, np.user_id, some (now + 30)⟩ [np] []
        = [⟨np.user_id, pid, "poll_closed", now + 30⟩] := by
  refine ⟨?_, ?_, ?_⟩
  · intro poll prefsTable votes q hq
    rcases List.mem_append.mp hq with hq' | hq'
    · rcases List.mem_append.mp hq' with hq'' | hq''
      · rcases mem_queue24hInserts hq'' with ⟨et, np', het, hcond, _, rfl⟩
        exact ⟨et, het, Or.inl ⟨rfl, rfl, hcond⟩⟩
      · rcases mem_queue1hInserts hq'' with ⟨et, np', het, hcond, _, rfl⟩
        exact ⟨et, het, Or.inr (Or.inl ⟨rfl, rfl, hcond⟩)⟩
    · rcases mem_queueClosedInserts hq' with ⟨et, np', het, _, rfl⟩
      exact ⟨et, het, Or.inr (Or.inr ⟨rfl, rfl⟩)⟩
  · simp only [queuePollClosingNotifications, queue24hInserts, queue1hInserts,
      queueClosedInserts, closingRecipients,
      if_pos (show now + 2880 > now + 1440 by omega),
      if_pos (show now + 2880 > now + 60 by omega)]
    simp [hmail, h24, h1, hcl, QueueInsert.mk.injEq]
    omega
  · simp only [queuePollClosingNotifications, queue24hInserts, queue1hInserts,
      queueClosedInserts, closingRecipients,
      if_neg (show ¬ now + 30 > now + 1440 by omega),
      if_neg (show ¬ now + 30 > now + 60 by omega)]
    simp [hmail, hcl]

/-- Witness for C5: the default record as the creator, at `now = 0`. -/
theorem c5_fire_time_rules_witness :
    ((defaultPrefsRecord "creator").email_enabled = true
      ∧ (defaultPrefsRecord "creator").poll_closing_24h = true
      ∧ (defaultPrefsRecord "creator").poll_closing_1h = true
      ∧ (defaultPrefsRecord "creator").poll_closed_immediately = true)
    ∧ queuePollClosingNotifications 0
        ⟨1, "Q?", (defaultPrefsRecord "creator").user_id, some (0 + 2880)⟩
        [defaultPrefsRecord "creator"] []
        = [⟨(defaultPrefsRecord "creator").user_id, 1, "poll_closing_24h", 0 + 1440⟩,
           ⟨(defaultPrefsRecord "creator").user_id, 1, "poll_closing_1h", 0 + 2820⟩,
           ⟨(defaultPrefsRecord "creator").user_id, 1, "poll_closed", 0 + 2880⟩]
    ∧ queuePollClosingNotifications 0
        ⟨1, "Q?", (defaultPrefsRecord "creator").user_id, some (0 + 30)⟩
        [defaultPrefsRecord "creator"] []
        = [⟨(defaultPrefsRecord "creator").user_id, 1, "poll_closed", 0 + 30⟩] :=
  ⟨⟨by decide, by decide, by decide, by decide⟩,
    (c5_fire_time_rules 0 (defaultPrefsRecord "creator") 1 "Q?"
      (by decide) (by decide) (by decide) (by decide)).2.1,
    (c5_fire_time_rules 0 (defaultPrefsRecord "creator") 1 "Q?"
      (by decide) (by decide) (by decide) (by decide)).2.2⟩

/-! ## Batch-loop accounting. -/

/-- `bump` increments exactly one counter. -/
theorem bump_total (c : Counters) (b : String) :
    (bump c b).success + (bump c b).failed + (bump c b).skipped
      = c.success + c.failed + c.skipped + 1 := by
  unfold bump
  split_ifs <;> simp <;> omega

/-- Every iterated entry lands in exactly one counter, so the fold's counter
total grows by the list length: no entry's outcome aborts the batch. -/
theorem processLoop_total (tz : Tzdb) (serverOff now : Int)
    (getUser : String → Option String)
    (prefsOf : String → Option NotificationPreferences)
    (sendOf : QueueEntry → SendOutcome) :
    ∀ (l : List QueueEntry) (acc : Counters × List LedgerRecord × List QueueEntry),
      ((l.foldl (processStep tz serverOff now getUser prefsOf sendOf) acc).1.success
        + (l.foldl (processStep tz serverOff now getUser prefsOf sendOf) acc).1.failed
        + (l.foldl (processStep tz serverOff now getUser prefsOf sendOf) acc).1.skipped)
      = acc.1.success + acc.1.failed + acc.1.skipped + l.length := by
  intro l
  induction l with
  | nil => intro acc; simp
  | cons e rest ih =>
    intro acc
    rw [List.foldl_cons, ih]
    have hb := bump_total acc.1
      (processOne tz serverOff now getUser prefsOf (sendOf e) e).bucket
    simp only [processStep, List.length_cons]
    omega

/-- Membership in the due-batch SELECT means: a row of the table, with status
`scheduled` and a due fire time. -/
theorem mem_selectDue {now : Int} {limit : Nat} {q : List QueueEntry} {e : QueueEntry}
    (h : e ∈ selectDue now limit q) :
    e ∈ q ∧ e.status = "scheduled" ∧ e.scheduled_for ≤ now := by
  unfold selectDue at h
  have h' := List.mem_of_mem_take h
  have h'' := List.mem_filter.mp h'
  refine ⟨h''.1, ?_, ?_⟩
  · have hb := h''.2
    simp only [Bool.and_eq_true, beq_iff_eq, decide_eq_true_eq] at hb
    exact hb.1
  · have hb := h''.2
    simp only [Bool.and_eq_true, beq_iff_eq, decide_eq_true_eq] at hb
    exact hb.2

/-- Claim C8 (corrected): a claimed entry whose user lookup fails is marked
`failed` and counted as failed, with **no ledger row written** (the claim's
"ledger record with status failed" does not happen: the `catch` block only
updates the queue).  The entry is not retried — a `failed` entry never again
satisfies the due-batch SELECT — and the failure never aborts the batch:
every selected entry is accounted in exactly one counter. -/
theorem c8_user_not_found_failure (tz : Tzdb) (serverOff now : Int)
    (getUser : String → Option String)
    (prefsOf : String → Option NotificationPreferences)
    (sendOf : QueueEntry → SendOutcome) (sendResult : SendOutcome)
    (entry : QueueEntry) (q : List QueueEntry)
    (h : getUser entry.user_id = none) :
    processOne tz serverOff now getUser prefsOf sendResult entry
      = ⟨"failed", entry.scheduled_for, [], "failed"⟩
    ∧ (∀ (now2 : Int) (limit : Nat) (e : QueueEntry),
        e ∈ selectDue now2 limit q → e.status = "scheduled")
    ∧ ((processScheduledNotifications tz serverOff now getUser prefsOf sendOf q).1.success
        + (processScheduledNotifications tz serverOff now getUser prefsOf sendOf q).1.failed
        + (processScheduledNotifications tz serverOff now getUser prefsOf sendOf q).1.skipped
        = (selectDue now 50 q).length) := by
  refine ⟨?_, ?_, ?_⟩
  · simp [processOne, h]
  · intro now2 limit e he
    exact (mem_selectDue he).2.1
  · unfold processScheduledNotifications
    rw [processLoop_total]
    simp

/-- Witness for C8: a due entry whose user the directory no longer knows. -/
theorem c8_user_not_found_failure_witness :
    ((fun _ : String => (none : Option String)) (dueEntry 9 "gone").user_id = none)
    ∧ processOne utcOnlyTz 0 600 (fun _ => none)
        (fun _ => some (defaultPrefsRecord "gone")) okSend (dueEntry 9 "gone")
        = ⟨"failed", (dueEntry 9 "gone").scheduled_for, [], "failed"⟩ :=
  ⟨rfl,
    (c8_user_not_found_failure utcOnlyTz 0 600 (fun _ => none)
      (fun _ => some (defaultPrefsRecord "gone")) (fun _ => okSend) okSend
      (dueEntry 9 "gone") [] rfl).1⟩

/-- Counterexample for C8 as stated: at a concrete claimed entry whose user no
longer exists, the processor marks the queue entry `failed` but writes an
empty ledger — no `EmailNotification` row with status `failed` exists, contrary
to the claim. -/
theorem c8_counterexample :
    processOne utcOnlyTz 0 600 (fun _ => none)
      (fun _ => some (defaultPrefsRecord "gone")) okSend (dueEntry 9 "gone")
      = ⟨"failed", 0, [], "failed"⟩ := by
  decide

/-- Claim C9 (code bug): an unauthenticated `GET` request — no service
credential, no user token, a user verifier accepting nothing — is answered
with HTTP 200 and `processScheduledNotifications` runs, because the handler
checks authorization only for `POST`.  An unauthenticated `POST` is rejected
as the claim expects. -/
theorem c9_unauthenticated_get_processes :
    edgeHandler "service-role-key" (fun _ => false) ⟨"GET", none⟩ = ⟨200, true⟩
      ∧ edgeHandler "service-role-key" (fun _ => false) ⟨"POST", none⟩ = ⟨401, false⟩ := by
  constructor <;> rfl

/-- Claim C7: a claimed entry whose recipient has a preference record with the
master switch off is cancelled: terminal status `cancelled`, no ledger row,
counted as skipped — and the outcome does not depend on the email capability
at all (no send attempt). -/
theorem c7_disabled_email_cancels (tz : Tzdb) (serverOff now : Int)
    (getUser : String → Option String)
    (prefsOf : String → Option NotificationPreferences)
    (sendResult : SendOutcome) (entry : QueueEntry)
    (email : String) (prefs : NotificationPreferences)
    (hu : getUser entry.user_id = some email)
    (hp : prefsOf entry.user_id = some prefs)
    (hoff : prefs.email_enabled = false) :
    processOne tz serverOff now getUser prefsOf sendResult entry
      = ⟨"cancelled", entry.scheduled_for, [], "skipped"⟩ := by
  simp [processOne, hu, hp, hoff]

/-- Witness for C7: a due entry for a user with email disabled; the claimed
outcome is identical under a succeeding capability. -/
theorem c7_disabled_email_cancels_witness :
    ((fun _ : String => some (disabledPrefsRecord "u2")) (dueEntry 2 "u2").user_id
        = some (disabledPrefsRecord "u2")
      ∧ (disabledPrefsRecord "u2").email_enabled = false)
    ∧ processOne utcOnlyTz 0 600 (fun _ => some "u2@example.com")
        (fun _ => some (disabledPrefsRecord "u2")) okSend (dueEntry 2 "u2")
        = ⟨"cancelled", (dueEntry 2 "u2").scheduled_for, [], "skipped"⟩ :=
  ⟨⟨by decide, by decide⟩,
    c7_disabled_email_cancels utcOnlyTz 0 600 (fun _ => some "u2@example.com")
      (fun _ => some (disabledPrefsRecord "u2")) okSend (dueEntry 2 "u2")
      "u2@example.com" (disabledPrefsRecord "u2") rfl rfl (by decide)⟩

/-- Counterexample for C6 as stated: a creator with no preference record gets
no queue entries at all (the recipient query reads only
`notification_preferences` rows), while the same creator with the default
record gets some — so absence is not treated as the defaults.  At dispatch
time, a user with no record is sent to at 23:00 UTC, inside the default
22:00–08:00 window, while a user holding the default record is rescheduled —
so the default quiet hours are not applied either. -/
theorem c6_counterexample :
    queuePollClosingNotifications 0 pollClosingIn48h [] [] = []
    ∧ queuePollClosingNotifications 0 pollClosingIn48h [defaultPrefsRecord "creator"] [] ≠ []
    ∧ (processOne utcOnlyTz 0 1380 (fun _ => some "c@example.com") (fun _ => none)
        okSend (dueEntry 7 "creator")).status = "sent"
    ∧ (processOne utcOnlyTz 0 1380 (fun _ => some "c@example.com")
        (fun _ => some (defaultPrefsRecord "creator")) okSend (dueEntry 7 "creator")).status
        = "scheduled" :=
  ⟨by decide, by decide, by decide, by decide⟩

/-- Claim C6 (corrected): a user with no `notification_preferences` record is
*excluded* from every recipient set the Scheduler computes, and at dispatch
time no gating applies to them at all: the null-preferences guards skip both
the master-switch check and the quiet-hours check, and the entry goes straight
to the send path. -/
theorem c6_no_record_means_no_gating (now : Int) (poll : PollRow)
    (prefsTable : List NotificationPreferences) (votes : List Vote) (u : String)
    (hu : u ∉ prefsTable.map (fun np => np.user_id)) :
    (∀ q ∈ queuePollClosingNotifications now poll prefsTable votes, q.user_id ≠ u)
    ∧ (∀ (tz : Tzdb) (serverOff tnow : Int) (getUser : String → Option String)
        (prefsOf : String → Option NotificationPreferences) (send : SendOutcome)
        (entry : QueueEntry) (email : String),
        getUser entry.user_id = some email → prefsOf entry.user_id = none →
        processOne tz serverOff tnow getUser prefsOf send entry = attemptSend entry send) := by
  constructor
  · intro q hq
    have huser : ∃ np ∈ prefsTable, q.user_id = np.user_id := by
      rcases List.mem_append.mp hq with hq' | hq'
      · rcases List.mem_append.mp hq' with hq'' | hq''
        · rcases mem_queue24hInserts hq'' with ⟨et, np, _, _, hnp, rfl⟩
          exact ⟨np, hnp, rfl⟩
        · rcases mem_queue1hInserts hq'' with ⟨et, np, _, _, hnp, rfl⟩
          exact ⟨np, hnp, rfl⟩
      · rcases mem_queueClosedInserts hq' with ⟨et, np, _, hnp, rfl⟩
        exact ⟨np, hnp, rfl⟩
    rcases huser with ⟨np, hnp, hqu⟩
    intro hcontra
    exact hu (List.mem_map.mpr ⟨np, hnp, by rw [← hqu, hcontra]⟩)
  · intro tz serverOff tnow getUser prefsOf send entry email h1 h2
    simp [processOne, h1, h2]

/-- Witness for C6: empty preference table; the dispatch path for a
record-less user is exactly the send branch. -/
theorem c6_no_record_means_no_gating_witness :
    ("creator" ∉ ([] : List NotificationPreferences).map (fun np => np.user_id))
    ∧ processOne utcOnlyTz 0 1380 (fun _ => some "c@example.com") (fun _ => none)
        okSend (dueEntry 7 "creator")
        = attemptSend (dueEntry 7 "creator") okSend :=
  ⟨by simp,
    (c6_no_record_means_no_gating 0 pollClosingIn48h [] [] "creator" (by simp)).2
      utcOnlyTz 0 1380 (fun _ => some "c@example.com") (fun _ => none)
      okSend (dueEntry 7 "creator") "c@example.com" rfl rfl⟩

/-! ## The non-atomic claim step. -/

/-- Folding the per-entry `processing` updates over a selection marks exactly
the rows whose id occurs in the selection. -/
theorem foldl_markStatus (sel : List QueueEntry) (q : List QueueEntry) :
    sel.foldl (fun s e => markStatus e.id "processing" s) q
      = q.map (fun e =>
          if sel.any (fun x => x.id == e.id) then { e with status := "processing" }
          else e) := by
  induction sel generalizing q with
  | nil => simp
  | cons x xs ih =>
    rw [List.foldl_cons, ih]
    unfold markStatus
    rw [List.map_map]
    apply List.map_congr_left
    intro e _
    by_cases hx : e.id = x.id
    · simp [Function.comp, hx]
    · simp [Function.comp, hx, Ne.symm hx]

/-- Counterexample for C1 as stated: with a single due entry and the legal
interleaving in which both runs execute their SELECT before either executes
its UPDATEs, both concurrent runs return the same entry — the selection and
the transition to `processing` are two separate statements, not one atomic
operation. -/
theorem c1_counterexample :
    (twoClaimsInterleaved 10 50 [dueEntry 1 "creator"]).1 = [dueEntry 1 "creator"]
    ∧ (twoClaimsInterleaved 10 50 [dueEntry 1 "creator"]).2.1 = [dueEntry 1 "creator"] :=
  ⟨by decide, by decide⟩

/-- Claim C1 (corrected): only *sequential* (non-overlapping) runs never both
claim the same entry: once the first run's claim step has completed, every id
it claimed is status `processing`, so the second run's SELECT excludes it. -/
theorem c1_sequential_claims_disjoint (now : Int) (limit : Nat)
    (q : List QueueEntry) (i : Nat)
    (h1 : i ∈ (claimDueBatch now limit q).1.map (fun e => e.id)) :
    i ∉ (claimDueBatch now limit (claimDueBatch now limit q).2).1.map (fun e => e.id) := by
  intro h2
  rcases List.mem_map.mp h2 with ⟨e2, he2, hid2⟩
  have hsel2 := mem_selectDue he2
  have hmem : e2 ∈ (selectDue now limit q).foldl
      (fun s e => markStatus e.id "processing" s) q := hsel2.1
  rw [foldl_markStatus] at hmem
  rcases List.mem_map.mp hmem with ⟨e0, _, heq⟩
  rcases List.mem_map.mp h1 with ⟨x, hx, hxid⟩
  by_cases hc : (selectDue now limit q).any (fun y => y.id == e0.id) = true
  · rw [if_pos hc] at heq
    have : e2.status = "processing" := by rw [← heq]
    rw [hsel2.2.1] at this
    exact absurd this (by decide)
  · rw [if_neg hc] at heq
    subst heq
    refine hc (List.any_eq_true.mpr ⟨x, hx, ?_⟩)
    rw [beq_iff_eq, hxid, ← hid2]

/-- Witness for C1 (amended): one due entry; the first run claims it, the
second run claims nothing. -/
theorem c1_sequential_claims_disjoint_witness :
    (1 ∈ (claimDueBatch 10 50 [dueEntry 1 "creator"]).1.map (fun e => e.id))
    ∧ (1 ∉ (claimDueBatch 10 50
        (claimDueBatch 10 50 [dueEntry 1 "creator"]).2).1.map (fun e => e.id)) :=
  ⟨by decide,
    c1_sequential_claims_disjoint 10 50 [dueEntry 1 "creator"] 1 (by decide)⟩

/-! ## Scheduler idempotency. -/

/-- Counterexample for C2 as stated: running the trigger body twice for the
same poll (two invocations appended into the table) leaves two entries with
the key `("creator", 1, "poll_closed")` — there is no unique constraint on
(user_id, poll_id, notification_type) and the INSERT has no ON CONFLICT, so
enqueue does not deduplicate. -/
theorem c2_counterexample :
    ((queuePollClosingNotifications 0 pollClosingIn30min [defaultPrefsRecord "creator"] []
       ++ queuePollClosingNotifications 0 pollClosingIn30min [defaultPrefsRecord "creator"] []).filter
       (fun q => decide (insertKey q = ("creator", 1, "poll_closed")))).length = 2 := by
  decide

/-- Keys of the uniform inserts built from a user list are nodup when the
user ids are. -/
theorem nodup_built_keys (l : List NotificationPreferences) (pid : Nat)
    (ty : String) (sf : Int)
    (h : (l.map (fun np => np.user_id)).Nodup) :
    ((l.map (fun np => (⟨np.user_id, pid, ty, sf⟩ : QueueInsert))).map insertKey).Nodup := by
  rw [List.map_map]
  have hcomp : (insertKey ∘ fun np => (⟨np.user_id, pid, ty, sf⟩ : QueueInsert))
      = (fun u => (u, pid, ty)) ∘ (fun np : NotificationPreferences => np.user_id) := rfl
  rw [hcomp, ← List.map_map]
  refine h.map ?_
  intro a b hab
  simpa using hab

/-- The recipient filter keeps user ids nodup. -/
theorem nodup_recipients_ids {prefsTable : List NotificationPreferences}
    (poll : PollRow) (votes : List Vote) (typeFlag : NotificationPreferences → Bool)
    (b : Bool) (h : (prefsTable.map (fun np => np.user_id)).Nodup) :
    ((closingRecipients prefsTable poll votes typeFlag b).map
      (fun np => np.user_id)).Nodup :=
  List.Nodup.sublist (List.Sublist.map _ (List.filter_sublist _)) h

/-- Keys of the first block are nodup. -/
theorem nodup_queue24h_keys (now : Int) (poll : PollRow)
    (prefsTable : List NotificationPreferences) (votes : List Vote)
    (h : (prefsTable.map (fun np => np.user_id)).Nodup) :
    ((queue24hInserts now poll prefsTable votes).map insertKey).Nodup := by
  unfold queue24hInserts
  split
  · split_ifs with hcond
    · exact nodup_built_keys _ _ _ _ (nodup_recipients_ids poll votes _ _ h)
    · simp
  · simp

/-- Keys of the second block are nodup. -/
theorem nodup_queue1h_keys (now : Int) (poll : PollRow)
    (prefsTable : List NotificationPreferences) (votes : List Vote)
    (h : (prefsTable.map (fun np => np.user_id)).Nodup) :
    ((queue1hInserts now poll prefsTable votes).map insertKey).Nodup := by
  unfold queue1hInserts
  split
  · split_ifs with hcond
    · exact nodup_built_keys _ _ _ _ (nodup_recipients_ids poll votes _ _ h)
    · simp
  · simp

/-- Keys of the third block are nodup. -/
theorem nodup_queueClosed_keys (poll : PollRow)
    (prefsTable : List NotificationPreferences) (votes : List Vote)
    (h : (prefsTable.map (fun np => np.user_id)).Nodup) :
    ((queueClosedInserts poll prefsTable votes).map insertKey).Nodup := by
  unfold queueClosedInserts
  split
  · exact nodup_built_keys _ _ _ _ (nodup_recipients_ids poll votes _ _ h)
  · simp

/-- Every key of the first block carries type `poll_closing_24h`. -/
theorem key_type_24h {now : Int} {poll : PollRow}
    {prefsTable : List NotificationPreferences} {votes : List Vote}
    {k : String × Nat × String}
    (h : k ∈ (queue24hInserts now poll prefsTable votes).map insertKey) :
    k.2.2 = "poll_closing_24h" := by
  rcases List.mem_map.mp h with ⟨qi, hqi, rfl⟩
  rcases mem_queue24hInserts hqi with ⟨et, np, _, _, _, rfl⟩
  rfl

/-- Every key of the second block carries type `poll_closing_1h`. -/
theorem key_type_1h {now : Int} {poll : PollRow}
    {prefsTable : List NotificationPreferences} {votes : List Vote}
    {k : String × Nat × String}
    (h : k ∈ (queue1hInserts now poll prefsTable votes).map insertKey) :
    k.2.2 = "poll_closing_1h" := by
  rcases List.mem_map.mp h with ⟨qi, hqi, rfl⟩
  rcases mem_queue1hInserts hqi with ⟨et, np, _, _, _, rfl⟩
  rfl

/-- Every key of the third block carries type `poll_closed`. -/
theorem key_type_closed {poll : PollRow}
    {prefsTable : List NotificationPreferences} {votes : List Vote}
    {k : String × Nat × String}
    (h : k ∈ (queueClosedInserts poll prefsTable votes).map insertKey) :
    k.2.2 = "poll_closed" := by
  rcases List.mem_map.mp h with ⟨qi, hqi, rfl⟩
  rcases mem_queueClosedInserts hqi with ⟨et, np, _, _, rfl⟩
  rfl

/-- Claim C2 (corrected): within a *single* trigger invocation no
(userId, pollId, notificationType) key repeats, because the preference table
has one row per user (`UNIQUE(user_id)`) and the three blocks use three
distinct types.  Re-invocation does duplicate (see the counterexample). -/
theorem c2_single_run_keys_nodup (now : Int) (poll : PollRow)
    (prefsTable : List NotificationPreferences) (votes : List Vote)
    (h : (prefsTable.map (fun np => np.user_id)).Nodup) :
    ((queuePollClosingNotifications now poll prefsTable votes).map insertKey).Nodup := by
  unfold queuePollClosingNotifications
  rw [List.map_append, List.map_append]
  refine List.Nodup.append (List.Nodup.append ?_ ?_ ?_) ?_ ?_
  · exact nodup_queue24h_keys now poll prefsTable votes h
  · exact nodup_queue1h_keys now poll prefsTable votes h
  · refine List.disjoint_left.mpr ?_
    intro k hk1 hk2
    have t1 := key_type_24h hk1
    have t2 := key_type_1h hk2
    rw [t1] at t2
    exact absurd t2 (by decide)
  · exact nodup_queueClosed_keys poll prefsTable votes h
  · refine List.disjoint_left.mpr ?_
    intro k hk1 hk2
    have t2 := key_type_closed hk2
    rcases List.mem_append.mp hk1 with hk | hk
    · have t1 := key_type_24h hk
      rw [t1] at t2
      exact absurd t2 (by decide)
    · have t1 := key_type_1h hk
      rw [t1] at t2
      exact absurd t2 (by decide)

/-- Witness for C2 (amended): the default creator record yields three
distinct keys in one run. -/
theorem c2_single_run_keys_nodup_witness :
    (([defaultPrefsRecord "creator"].map (fun np => np.user_id)).Nodup)
    ∧ ((queuePollClosingNotifications 0 pollClosingIn48h
        [defaultPrefsRecord "creator"] []).map insertKey).Nodup :=
  ⟨by simp,
    c2_single_run_keys_nodup 0 pollClosingIn48h [defaultPrefsRecord "creator"] []
      (by simp)⟩

/-! ## Deferral correctness. -/

/-- Non-membership in the coded quiet window, as a proposition. -/
theorem quietWindowCheck_eq_false_iff (s e w : Int) :
    quietWindowCheck s e w = false
      ↔ ¬ (if e < s then s ≤ w ∨ w < e else s ≤ w ∧ w < e) := by
  rw [← quietWindowCheck_iff]
  cases hqw : quietWindowCheck s e w <;> simp

/-- Counterexample for C3 as stated: for the window 08:30–08:00 (inverted
inside a single hour, accepted as given per the spec's own edge-case note) the
instant 08:45 UTC is inside quiet hours, yet `getNextDeliveryTime` returns
08:00 the *same* day — strictly before the original instant, hence not the
earliest at-or-after instant outside quiet hours.  The day-advance test
`endHour < startHour && hours >= startHour` sees only hours, not minutes. -/
theorem c3_counterexample :
    isInQuietHours utcOnlyTz 0 (oddWindowPrefs "u") 525 = true
    ∧ getNextDeliveryTime utcOnlyTz 0 (oddWindowPrefs "u") 525 < 525 :=
  ⟨by decide, by decide⟩

/-- Claim C3 (corrected): assume the processing host's offset equals the
user's (`serverOff = z`; the code returns the candidate without converting it
back through the user's timezone, so the result is only an instant of the
user's frame under this assumption), and assume the window's wrap is visible
at hour granularity (`endMinutes < startMinutes → endHour < startHour`).
Then `getNextDeliveryTime` returns an in-quiet-hours instant's earliest
at-or-after minute that is outside quiet hours, and returns any other instant
unchanged. -/
theorem c3_deferral_correct (tz : Tzdb) (z sh sm eh em : Int)
    (p : NotificationPreferences) (t : Int)
    (htz : tz p.timezone = some z)
    (hps : parseTime p.quiet_hours_start = some (sh, sm))
    (hpe : parseTime p.quiet_hours_end = some (eh, em))
    (hsh0 : 0 ≤ sh) (hsh1 : sh < 24) (hsm0 : 0 ≤ sm) (hsm1 : sm < 60)
    (heh0 : 0 ≤ eh) (heh1 : eh < 24) (hem0 : 0 ≤ em) (hem1 : em < 60)
    (hwrap : eh * 60 + em < sh * 60 + sm → eh < sh) :
    (isInQuietHours tz z p t = false → getNextDeliveryTime tz z p t = t)
    ∧ (isInQuietHours tz z p t = true →
        t ≤ getNextDeliveryTime tz z p t
        ∧ isInQuietHours tz z p (getNextDeliveryTime tz z p t) = false
        ∧ ∀ u : Int, t ≤ u → u < getNextDeliveryTime tz z p t →
            isInQuietHours tz z p u = true) := by
  constructor
  · intro h
    simp [getNextDeliveryTime, h]
  · intro h
    have heval : quietWindowCheck (sh * 60 + sm) (eh * 60 + em) ((t + z) % 1440) = true := by
      rw [← isInQuietHours_eval tz z z sh sm eh em p t htz hps hpe]
      exact h
    have hq := (quietWindowCheck_iff _ _ _).mp heval
    have hr := getNextDeliveryTime_eval tz z sh sm eh em p t htz hps hpe h
    have hdiv : 1440 * ((t + z) / 1440) + (t + z) % 1440 = t + z := Int.ediv_add_emod _ _
    have hw0 : 0 ≤ (t + z) % 1440 := Int.emod_nonneg _ (by norm_num)
    have hw1 : (t + z) % 1440 < 1440 := Int.emod_lt_of_pos _ (by norm_num)
    refine ⟨?_, ?_, ?_⟩
    · rw [hr]
      split_ifs with hc
      · omega
      · by_cases hws : eh * 60 + em < sh * 60 + sm
        · have hehsh := hwrap hws
          rw [if_pos hws] at hq
          rcases hq with hq | hq
          · exact absurd ⟨hehsh, by omega⟩ hc
          · omega
        · rw [if_neg hws] at hq
          omega
    · have hevalr := isInQuietHours_eval tz z z sh sm eh em p
        (getNextDeliveryTime tz z p t) htz hps hpe
      rw [hevalr, quietWindowCheck_eq_false_iff, hr]
      by_cases hws : eh * 60 + em < sh * 60 + sm
      · have hehsh := hwrap hws
        rw [if_pos hws]
        split_ifs with hc
        · omega
        · omega
      · rw [if_neg hws]
        split_ifs with hc
        · omega
        · omega
    · intro u h1 h2
      rw [hr] at h2
      have hevalu := isInQuietHours_eval tz z z sh sm eh em p u htz hps hpe
      rw [hevalu, quietWindowCheck_iff]
      have hu0 : 0 ≤ (u + z) % 1440 := Int.emod_nonneg _ (by norm_num)
      have hu1 : (u + z) % 1440 < 1440 := Int.emod_lt_of_pos _ (by norm_num)
      have hudiv : 1440 * ((u + z) / 1440) + (u + z) % 1440 = u + z := Int.ediv_add_emod _ _
      by_cases hws : eh * 60 + em < sh * 60 + sm
      · have hehsh := hwrap hws
        rw [if_pos hws] at hq ⊢
        split_ifs at h2 with hc
        · rcases hq with hq | hq
          · omega
          · exact absurd hc (by omega)
        · rcases hq with hq | hq
          · exact absurd ⟨hehsh, by omega⟩ hc
          · omega
      · rw [if_neg hws] at hq ⊢
        split_ifs at h2 with hc
        · exact absurd hc (by omega)
        · omega

/-- Witness for C3 (amended): default window 22:00–08:00 UTC at 23:00; the
deferred instant is at-or-after and outside quiet hours. -/
theorem c3_deferral_correct_witness :
    (utcOnlyTz (defaultPrefsRecord "u").timezone = some 0
      ∧ parseTime (defaultPrefsRecord "u").quiet_hours_start = some (22, 0)
      ∧ parseTime (defaultPrefsRecord "u").quiet_hours_end = some (8, 0)
      ∧ isInQuietHours utcOnlyTz 0 (defaultPrefsRecord "u") 1380 = true)
    ∧ 1380 ≤ getNextDeliveryTime utcOnlyTz 0 (defaultPrefsRecord "u") 1380
    ∧ isInQuietHours utcOnlyTz 0 (defaultPrefsRecord "u")
        (getNextDeliveryTime utcOnlyTz 0 (defaultPrefsRecord "u") 1380) = false :=
  ⟨⟨by decide, by decide, by decide, by decide⟩,
    ((c3_deferral_correct utcOnlyTz 0 22 0 8 0 (defaultPrefsRecord "u") 1380
        (by decide) (by decide) (by decide) (by decide) (by decide) (by decide)
        (by decide) (by decide) (by decide) (by decide) (by decide)
        (by decide)).2 (by decide)).1,
    ((c3_deferral_correct utcOnlyTz 0 22 0 8 0 (defaultPrefsRecord "u") 1380
        (by decide) (by decide) (by decide) (by decide) (by decide) (by decide)
        (by decide) (by decide) (by decide) (by decide) (by decide)
        (by decide)).2 (by decide)).2.1⟩

end Polly
